import Mathlib

/-!
Shallow embedding of the pythonwhat core (State.py, local.py, tasks.py) and
proofs about it.  Python dictionaries are modelled as association lists whose
lookup returns the first matching binding, so the Python merge operation
(two-star unpacking, later entries winning) is modelled by prepending the
winning dictionary.  Arbitrary Python execution (exec/eval of learner code) is
abstracted as an explicit behaviour function passed to the definition that
runs it; everything else is translated from the source.
-/

namespace PythonWhat

/-- Python runtime values, restricted to the shapes the claims exercise.
strRep models the built-in str() conversion. -/
inductive PyVal where
  | vnone
  | vbool (b : Bool)
  | vint (n : Int)
  | vstr (s : String)
deriving DecidableEq, Repr

/-- Model of Python str() on the embedded values. -/
def strRep : PyVal → String
  | PyVal.vnone => "None"
  | PyVal.vbool b => if b then "True" else "False"
  | PyVal.vint n => toString n
  | PyVal.vstr s => s

/-- A Python dict as an association list; the first matching key wins on
lookup, so later Python updates are modelled by prepending. -/
abbrev Dict (V : Type) : Type := List (String × V)

/-- Dictionary lookup: first binding for the key, if any. -/
def dlookup {V : Type} : Dict V → String → Option V
  | [], _ => none
  | (k, v) :: rest, key => if k = key then some v else dlookup rest key

/-- Python dict merge as in a two-star unpacking of a then b: b wins on
collisions, modelled by putting b in front. -/
def dmerge {V : Type} (a b : Dict V) : Dict V := b ++ a

/-- Python dict item assignment d[k] = v. -/
def dinsert {V : Type} (d : Dict V) (k : String) (v : V) : Dict V := (k, v) :: d

/-- Python key-membership test. -/
def hasKey {V : Type} (d : Dict V) (k : String) : Bool := (dlookup d k).isSome

/-- Context (State.py lines 23-41): a layered lexical scope.  The context
field holds the defined items of the current TargetVars layer (TargetVars
itself lives in pythonwhat.parsing, outside the sources; only its
defined_items dictionary is relevant here) and prev holds the accumulated
bindings of the ancestors. -/
structure Context where
  context : Dict PyVal
  prev : Dict PyVal
deriving DecidableEq, Repr

/-- The _items dictionary computed in Context.__init__: prev overlaid with
the current layer, current layer winning. -/
def Context.items (c : Context) : Dict PyVal := dmerge c.prev c.context

/-- Context.update_ctx (State.py lines 30-32): derive a child scope whose
prev is the receiver's accumulated bindings. -/
def Context.update_ctx (c : Context) (new_ctx : Dict PyVal) : Context :=
  { context := new_ctx, prev := dmerge c.prev c.context }

/-- One entry of a State's message trail: a template and its parameters. -/
structure Msg where
  msg : String
  kwargs : Dict PyVal
deriving DecidableEq, Repr

/-- A syntax-tree node (asttokens trees are opaque to the claims; only node
identity and the list shape of bare statement sequences matter). -/
inductive Tree where
  | node (label : String) (children : List Tree)

/-- wrap_in_module (pythonwhat.utils_ast, outside the sources).
Modelled from the spec: a bare sequence of statements is wrapped into a
single synthetic module-level unit. -/
def wrap_in_module (ts : List Tree) : Tree := Tree.node "Module" ts

/-- A subtree argument of to_child: Python None, a single node, or a bare
list of statements. -/
inductive SubtreeArg where
  | noneArg
  | nodeArg (t : Tree)
  | listArg (ts : List Tree)

/-- The wrapping step at the top of to_child followed by the truthiness of
the result: lists become module nodes, so only None is absent. -/
def normalizeSubtree : SubtreeArg → Option Tree
  | SubtreeArg.noneArg => none
  | SubtreeArg.nodeArg t => some t
  | SubtreeArg.listArg ts => some (wrap_in_module ts)

/-- Modelled from the spec: the Reporter (pythonwhat.reporter, outside the
sources) is a feedback sink; what the claims need is the parent link and the
list of error messages handed to its constructor. -/
inductive Reporter where
  | root
  | child (parent : Reporter) (errors : List String)
deriving DecidableEq, Repr

/-- The attribute record of one State (State.py __init__).  The token maps
are modelled by their get_text functions re-slicing source text for a
subtree.  The process fields hold the identity of the worker process object
(creation order), raw_student_output the captured stdout of the student run,
and klass the name of the dynamically selected State subclass. -/
structure StateData where
  student_code : String
  solution_code : Option String
  pre_exercise_code : String
  student_tree : Option Tree
  solution_tree : Option Tree
  student_get_text : Tree → String
  solution_get_text : Tree → String
  student_context : Context
  solution_context : Context
  student_env : Context
  solution_env : Context
  student_parts : Option (Dict PyVal)
  solution_parts : Option (Dict PyVal)
  highlight : Option Tree
  highlighting_disabled : Option Bool
  messages : List Msg
  student_process : Nat
  solution_process : Nat
  raw_student_output : String
  reporter : Reporter
  klass : String

/-- A State together with its chain of ancestors (the parent_state links,
nearest first). -/
structure PyState where
  data : StateData
  ancestors : List StateData

/-- The append_message normalisation at the top of to_child: a plain string
becomes a dict with empty kwargs. -/
def toMsg : Sum String Msg → Msg
  | Sum.inl s => { msg := s, kwargs := [] }
  | Sum.inr m => m

/-- The context/environment derivation step of to_child: update through
update_ctx when new bindings are supplied, otherwise share the parent's
Context unchanged. -/
def ctxArg (base : Context) (u : Option (Dict PyVal)) : Context :=
  match u with
  | some d => base.update_ctx d
  | none => base

/-- The highlighting_disabled defaulting step of to_child: inherit the
parent's flag when the argument is None. -/
def hdArg (base : Option Bool) (hd : Option Bool) : Option Bool :=
  match hd with
  | some b => some b
  | none => base

/-- State._update (State.py lines 253-258): a shallow copy of the state with
the given attributes replaced; every other attribute, including the parent
link, is carried over unchanged. -/
def PyState.updateAttrs (s : PyState)
    (student_context solution_context student_env solution_env : Context)
    (highlight : Option Tree) (highlighting_disabled : Option Bool)
    (messages : List Msg) : PyState :=
  { s with data := { s.data with
      student_context := student_context,
      solution_context := solution_context,
      student_env := student_env,
      solution_env := solution_env,
      highlight := highlight,
      highlighting_disabled := highlighting_disabled,
      messages := messages } }

/-- State.to_child (State.py lines 157-251).  Bare statement lists are
wrapped into a module node; contexts and environments are derived through
update_ctx when updates are supplied and shared otherwise; the message is
appended to the trail.  If both subtrees are present a child State is built
(with the child highlight defaulting to the student subtree, as in
State.__init__ for a non-root state) and the parent chain is extended;
otherwise the same State is returned through _update. -/
def to_child (s : PyState)
    (student_subtree solution_subtree : SubtreeArg)
    (student_context solution_context student_env solution_env : Option (Dict PyVal))
    (student_parts solution_parts : Option (Dict PyVal))
    (highlight : Option Tree) (highlighting_disabled : Option Bool)
    (append_message : Sum String Msg) (node_name : String) : PyState :=
  let stuSub := normalizeSubtree student_subtree
  let solSub := normalizeSubtree solution_subtree
  let solution_context' := ctxArg s.data.solution_context solution_context
  let student_context' := ctxArg s.data.student_context student_context
  let solution_env' := ctxArg s.data.solution_env solution_env
  let student_env' := ctxArg s.data.student_env student_env
  let highlighting_disabled' := hdArg s.data.highlighting_disabled highlighting_disabled
  let messages' := s.data.messages ++ [toMsg append_message]
  match stuSub, solSub with
  | some stuT, some solT =>
      { data := {
          student_code := s.data.student_get_text stuT,
          solution_code := some (s.data.solution_get_text solT),
          pre_exercise_code := s.data.pre_exercise_code,
          student_tree := some stuT,
          solution_tree := some solT,
          student_get_text := s.data.student_get_text,
          solution_get_text := s.data.solution_get_text,
          student_context := student_context',
          solution_context := solution_context',
          student_env := student_env',
          solution_env := solution_env',
          student_parts := student_parts,
          solution_parts := solution_parts,
          highlight := (match highlight with
            | none => some stuT
            | some h => some h),
          highlighting_disabled := highlighting_disabled',
          messages := messages',
          student_process := s.data.student_process,
          solution_process := s.data.solution_process,
          raw_student_output := s.data.raw_student_output,
          reporter := s.data.reporter,
          klass := if node_name = "" then "State" else node_name },
        ancestors := s.data :: s.ancestors }
  | _, _ =>
      PyState.updateAttrs s student_context' solution_context' student_env'
        solution_env' highlight highlighting_disabled' messages'

/-- TaskRunTreeStoreEnv.__call__ (tasks.py lines 238-259), the
run-snippet-capture-result task.  The environment preparation (copy_env,
extra_env deep-copy, set_context_vals) is abstracted into the prepared
environment argument, and the exec of pre_code plus the compiled tree is
abstracted as the snippet function, which either raises or yields the final
environment.  The result is the returned value together with the process
namespace after the staging assignment to tempname. -/
def TaskRunTreeStoreEnv.call (name tempname : String)
    (snippet : Dict PyVal → Except Unit (Dict PyVal))
    (prepared_env user_ns : Dict PyVal) : Option String × Dict PyVal :=
  match snippet prepared_env with
  | Except.error _ => (none, user_ns)
  | Except.ok new_env =>
      match dlookup new_env name with
      | none => (some "undefined", user_ns)
      | some obj => (some (strRep obj), dinsert user_ns tempname obj)

/-- The observable state of one WorkerProcess for kill(): whether the OS
process is alive and whether the object is in the class-level instances
registry. -/
structure KillState where
  alive : Bool
  registered : Bool
deriving DecidableEq, Repr

/-- WorkerProcess.kill (local.py lines 103-116).  If the process is alive it
sends the shutdown task, terminates and joins with a 3 second timeout; the
stillAliveAfterJoin parameter abstracts whether the OS process survived
that.  If it did, the bare raise Exception fires (first component true) and
the registry line is never reached, the finally block being empty; otherwise
the instance is removed from the registry if present. -/
def WorkerProcess.kill (stillAliveAfterJoin : Bool) (s : KillState) :
    Bool × KillState :=
  if s.alive then
    if stillAliveAfterJoin then
      (true, s)
    else
      (false, { alive := false, registered := false })
  else
    (false, { s with registered := false })

/-! ### Worker Process event loop (local.py) -/

/-- The private runtime namespace of a worker's shell. -/
abbrev Shell := Dict PyVal

/-- A task on the worker's queue: the distinguished shutdown task
(TaskKillProcess) or an ordinary task whose body runs against the shell and
either returns a value with the updated shell or raises with a message. -/
inductive WTask where
  | killTask
  | normal (body : Shell → Except String (PyVal × Shell))

/-- What gets pushed on the result queue: an answer value, or the
backend-error payload list built by CaptureErrors (local.py lines 51-61)
carrying str(exception). -/
inductive WResult where
  | value (v : PyVal)
  | backendError (payload : String)
deriving DecidableEq, Repr

/-- Whether the queue contains the shutdown task. -/
def containsKill : List WTask → Bool
  | [] => false
  | WTask.killTask :: _ => true
  | WTask.normal _ :: rest => containsKill rest

/-- WorkerProcess.run (local.py lines 81-97): block for a task, execute it
inside the CaptureErrors scope, push the answer (or the backend-error
payload when the task raised), and loop; TaskKillProcess returns None as its
answer and then breaks the loop.  Modelled over the finite list of tasks
submitted before the loop blocks forever. -/
def WorkerProcess.runLoop (shell : Shell) : List WTask → List WResult
  | [] => []
  | WTask.killTask :: _ => [WResult.value PyVal.vnone]
  | WTask.normal body :: rest =>
      match body shell with
      | Except.ok (v, shell2) => WResult.value v :: WorkerProcess.runLoop shell2 rest
      | Except.error msg => WResult.backendError msg :: WorkerProcess.runLoop shell rest

/-! ### Scoped environment teardown (tasks.py) -/

/-- One recorded context manager: its identity and whether its exit raises
(with which message). -/
structure CtxObj where
  objId : Nat
  exitResult : Option String
deriving DecidableEq, Repr

/-- The loop body of context_objs_exit, instrumented with the sequence of
exit calls performed (first component of the result). -/
def context_objs_exit_go : List CtxObj → List Nat → Option String → List Nat × Option String
  | [], exited, got_error => (exited, got_error)
  | o :: rest, exited, got_error =>
      context_objs_exit_go rest (exited ++ [o.objId])
        (match o.exitResult with
         | some e => some e
         | none => got_error)

/-- context_objs_exit (tasks.py lines 495-503): exit every recorded manager
in order, each call guarded by a try swallowing the exception into
got_error, and return got_error (initially the falsy False, modelled as
none).  The first component records which managers were exited, in order. -/
def context_objs_exit (context_objs : List CtxObj) : List Nat × Option String :=
  context_objs_exit_go context_objs [] none

/-- The last error in a list of per-manager exit outcomes, if any. -/
def lastErr : List (Option String) → Option String
  | [] => none
  | x :: rest =>
      match lastErr rest with
      | some e => some e
      | none => x

/-! ### Signature resolution (tasks.py) -/

/-- A formal parameter signature, as the list of parameter names that
inspect.Signature is built from. -/
abbrev Sig := List String

/-- A runtime callable, observable only through inspect.signature, which may
fail. -/
structure PyCallable where
  introspectSig : Option Sig
deriving DecidableEq, Repr

/-- The runtime environment get_signature evaluates in: evalObj models
eval(expr, env) producing a callable (none when the eval raises) and
typeNameOf models type(eval(expr, env)).__name__ (none when that eval
raises). -/
structure SigEnv where
  evalObj : String → Option PyCallable
  typeNameOf : String → Option String

/-- Split a character list on a separator, Python str.split style (an empty
input yields one empty piece). -/
def splitChars (sep : Char) : List Char → List (List Char)
  | [] => [[]]
  | c :: rest =>
      let r := splitChars sep rest
      if c = sep then [] :: r
      else
        match r with
        | [] => [[c]]
        | h :: t => (c :: h) :: t

/-- Python str.split(sep) for a single-character separator. -/
def pySplit (s : String) (sep : Char) : List String :=
  (splitChars sep s.data).map (fun cs => String.mk cs)

/-- Python str.join with a dot separator. -/
def joinDot : List String → String
  | [] => ""
  | [x] => x
  | x :: rest => x ++ "." ++ joinDot rest

/-- The inner manual-table block of get_signature (tasks.py lines 449-466):
the direct name first; if absent and the mapped name is an attribute access,
the generalized name built from the runtime type of the receiver; none when
every manual route raises (each raise is caught by the enclosing except). -/
def manual_lookup (name mapped_name : String) (manual_sigs : Dict Sig)
    (env : SigEnv) : Option Sig :=
  match dlookup manual_sigs name with
  | some sig => some sig
  | none =>
      if mapped_name.data.contains '.' then
        match env.typeNameOf ((pySplit name '.').headD "") with
        | none => none
        | some tn => dlookup manual_sigs (joinDot (tn :: (pySplit name '.').tail))
      else none

/-- The runtime-introspection fallback of get_signature:
inspect.signature(fun), whose own failure becomes the final signature
error. -/
def introspect (f : PyCallable) : Except String Sig :=
  match f.introspectSig with
  | some sig => Except.ok sig
  | none => Except.error "signature error - cannot determine signature"

/-- get_signature (tasks.py lines 432-473).  A string signature argument is
looked up directly in the manual table (error when absent).  Otherwise, for
an unknown signature, the mapped name must evaluate to a callable; the
manual table is consulted (directly, then via the generalized method name),
and only when that whole block raises does inspect.signature(fun) run, its
own failure becoming the final error. -/
def get_signature (name mapped_name : String)
    (signature : Option (Sum String Sig)) (manual_sigs : Dict Sig)
    (env : SigEnv) : Except String Sig :=
  match signature with
  | some (Sum.inl s) =>
      match dlookup manual_sigs s with
      | some ps => Except.ok ps
      | none => Except.error "signature error - specified signature not found"
  | some (Sum.inr sig) => Except.ok sig
  | none =>
      match env.evalObj mapped_name with
      | none => Except.error (mapped_name ++ "() was not found.")
      | some f =>
          match manual_lookup name mapped_name manual_sigs env with
          | some sig => Except.ok sig
          | none => introspect f

/-- A concrete signature environment: df evaluates to a DataFrame object and
df.head to a bound method whose runtime introspection would report a
different signature than the manual table. -/
def sampleSigEnv : SigEnv :=
  { evalObj := fun s =>
      if s = "df.head" then some { introspectSig := some ["runtime_self", "runtime_n"] }
      else if s = "df" then some { introspectSig := none }
      else none,
    typeNameOf := fun s => if s = "df" then some "DataFrame" else none }

/-! ### Result wrappers staging a representation (tasks.py) -/

/-- A transportable byte representation. -/
abbrev Bytes := List Nat

/-- The observable behaviour of the worker process for one wrapper call: the
string result the main task reports, and the representation that
getRepresentation would produce for the staged value.  getRepresentation
(tasks.py lines 348-359) consults the converter table and dill and is
abstracted as this single response. -/
structure ProcBehavior where
  strResult : Option String
  representation : Option Bytes
deriving DecidableEq, Repr

/-- A request sent to the worker, for tracing the protocol order. -/
inductive ReqEvent where
  | mainTask (kind : String)
  | reprRequest (name : String)
deriving DecidableEq, Repr

/-- getResultInProcess (tasks.py lines 377-384): submit TaskGetResult under
the staging name, and only when its string result is not None request the
staged value's representation; returns (bytestream, strrep) and the trace of
requests issued. -/
def getResultInProcess (p : ProcBehavior) :
    (Option Bytes × Option String) × List ReqEvent :=
  match p.strResult with
  | some s => ((p.representation, some s),
      [ReqEvent.mainTask "TaskGetResult", ReqEvent.reprRequest "_evaluation_object_"])
  | none => ((none, none), [ReqEvent.mainTask "TaskGetResult"])

/-- getFunctionCallResultInProcess (tasks.py lines 395-402), same protocol
around TaskGetFunctionCallResult. -/
def getFunctionCallResultInProcess (p : ProcBehavior) :
    (Option Bytes × Option String) × List ReqEvent :=
  match p.strResult with
  | some s => ((p.representation, some s),
      [ReqEvent.mainTask "TaskGetFunctionCallResult",
       ReqEvent.reprRequest "_evaluation_object_"])
  | none => ((none, none), [ReqEvent.mainTask "TaskGetFunctionCallResult"])

/-- getTreeResultInProcess (tasks.py lines 404-411), same protocol around
TaskGetTreeResult. -/
def getTreeResultInProcess (p : ProcBehavior) :
    (Option Bytes × Option String) × List ReqEvent :=
  match p.strResult with
  | some s => ((p.representation, some s),
      [ReqEvent.mainTask "TaskGetTreeResult", ReqEvent.reprRequest "_evaluation_object_"])
  | none => ((none, none), [ReqEvent.mainTask "TaskGetTreeResult"])

/-- The invariant the three wrapper calls share: the bytestream is None
whenever the string result is None, a representation is requested only when
the string result was not None, and the trace is the main task optionally
followed by the representation request for the staging name. -/
def resultPairProtocol
    (f : ProcBehavior → (Option Bytes × Option String) × List ReqEvent) : Prop :=
  ∀ p : ProcBehavior,
    ((f p).1.2 = none → (f p).1.1 = none)
    ∧ (∀ n : String, ReqEvent.reprRequest n ∈ (f p).2 → (f p).1.2 ≠ none)
    ∧ (∃ k : String, (f p).2 = [ReqEvent.mainTask k]
        ∨ (f p).2 = [ReqEvent.mainTask k, ReqEvent.reprRequest "_evaluation_object_"])

/-! ### Message trail rendering (State.py) -/

/-- The template renderer (jinja2, an external collaborator): template text,
the parent entry's parameters if any, the current entry's parameters, and
the child entry's parameters if any. -/
abbrev RenderFn := String → Option (Dict PyVal) → Dict PyVal → Option (Dict PyVal) → String

/-- The template preprocessing in build_message: the literal JINJA marker is
stripped before rendering. -/
def stripJinja (s : String) : String := s.replace "__JINJA__:" ""

/-- One step of the rendering loop: skip an empty message, otherwise render
it against its window. -/
def renderWindow (render : RenderFn)
    (w : (Option Msg × Msg) × Option Msg) : Option String :=
  if w.1.2.msg = "" then none
  else some (render (stripJinja w.1.2.msg) (w.1.1.map Msg.kwargs) w.1.2.kwargs
      (w.2.map Msg.kwargs))

/-- The zip of build_message (State.py line 132): each entry paired with its
predecessor (a leading empty dict, modelled as none) and successor (a
trailing empty dict, modelled as none). -/
def msgWindows (prev : Option Msg) (msgs : List Msg) :
    List ((Option Msg × Msg) × Option Msg) :=
  (List.zip (prev :: msgs.dropLast.map some) msgs).zip (msgs.tail.map some ++ [none])

/-- State.build_message (State.py lines 124-152): append the trailing
message, render each non-empty entry against its sliding window, keep only
the last three rendered entries when highlight information is available and
highlighting is not disabled, then join (append) or take the last entry
(not append; none models the IndexError on an empty list). -/
def build_message (render : RenderFn) (messages : List Msg)
    (highlight : Option Tree) (highlighting_disabled : Option Bool)
    (tail : String) (fmt_kwargs : Dict PyVal) (append : Bool) : Option String :=
  let msgs := messages ++ [{ msg := tail, kwargs := fmt_kwargs }]
  let out_list := (msgWindows none msgs).filterMap (renderWindow render)
  let out_list2 :=
    if highlight.isSome && !(highlighting_disabled.getD false) then
      out_list.drop (out_list.length - 3)
    else out_list
  if append then some (String.join out_list2) else out_list2.getLast?

/-- Rendering of a message trail stated recursively: each non-empty entry is
rendered against its predecessor and successor parameters, in trail
order. -/
def renderAll (render : RenderFn) : Option Msg → List Msg → List String
  | _, [] => []
  | prev, d :: rest =>
      let tailList := renderAll render (some d) rest
      if d.msg = "" then tailList
      else render (stripJinja d.msg) (prev.map Msg.kwargs) d.kwargs
          (rest.head?.map Msg.kwargs) :: tailList

/-- The last three entries of a list. -/
def lastThree (l : List String) : List String := l.drop (l.length - 3)

/-- build_message as the spec words it: render every non-empty entry of the
trail (with the trailing message appended) in order against its sliding
window, keep only the last three rendered entries when highlighting is
active, and concatenate. -/
def build_message_spec (render : RenderFn) (messages : List Msg)
    (highlight : Option Tree) (highlighting_disabled : Option Bool)
    (tail : String) (fmt_kwargs : Dict PyVal) : String :=
  let rendered := renderAll render none (messages ++ [{ msg := tail, kwargs := fmt_kwargs }])
  let kept :=
    if highlight.isSome && !(highlighting_disabled.getD false) then lastThree rendered
    else rendered
  String.join kept

/-! ### Execution orchestrator (local.py) -/

/-- Observable orchestration events: directory creation, working-directory
changes, and the execution of one code unit by one worker process in one
working directory. -/
inductive FsEvent where
  | mkdirEvent (path : String)
  | chdirEvent (path : String)
  | execEvent (procId : Nat) (wd : String) (code : String)
deriving DecidableEq, Repr

/-- The orchestrator-side state: current working directory, the identity the
next created worker process object receives (creation order; the random
_identity token is a separate concern), and the event trace. -/
structure OrchSt where
  cwd : String
  nextPid : Nat
  trace : List FsEvent
deriving DecidableEq, Repr

/-- run_code (local.py lines 145-155): run one code unit capturing stdout;
any raise is caught and stringified, leaving empty output.  The execution
itself is abstracted as the behaviour value: output on success, message on
raise. -/
def run_code (behavior : Except String String) : String × Option String :=
  match behavior with
  | Except.ok out => (out, none)
  | Except.error e => ("", some e)

/-- run_single_process (local.py lines 158-187) in its default simple mode:
create a fresh SimpleProcess, run the pre-exercise code (result discarded),
run the code, and return the process with the code run's output and error.
behave gives each code unit's behaviour in the worker. -/
def run_single_process (behave : String → Except String String)
    (pec code : String) (st : OrchSt) : (Nat × String × Option String) × OrchSt :=
  let procId := st.nextPid
  let st1 : OrchSt := { st with
    nextPid := st.nextPid + 1,
    trace := st.trace ++ [FsEvent.execEvent procId st.cwd pec] }
  let _pecResult := run_code (behave pec)
  let r := run_code (behave code)
  let st2 : OrchSt := { st1 with
    trace := st1.trace ++ [FsEvent.execEvent procId st1.cwd code] }
  ((procId, r.1, r.2), st2)

/-- ChDir (local.py lines 129-142): step into a directory for the body and
always restore the previous one afterwards. -/
def with_chdir {A : Type} (path : String) (st : OrchSt)
    (body : OrchSt → A × OrchSt) : A × OrchSt :=
  let old := st.cwd
  let stIn : OrchSt := { st with cwd := path, trace := st.trace ++ [FsEvent.chdirEvent path] }
  let res := body stIn
  (res.1, { res.2 with cwd := old, trace := res.2.trace ++ [FsEvent.chdirEvent old] })

/-- run_exercise (local.py lines 190-197): run the solution inside its
working directory, then the student inside its own; the solution run's
output and error are discarded, the student run's are returned. -/
def run_exercise (behave : String → Except String String)
    (pec sol_code stu_code : String) (sol_wd stu_wd : Option String)
    (st : OrchSt) : (Nat × Nat × String × Option String) × OrchSt :=
  let solStep := with_chdir (sol_wd.getD st.cwd) st
    (fun s => run_single_process behave pec sol_code s)
  let st1 := solStep.2
  let stuStep := with_chdir (stu_wd.getD st1.cwd) st1
    (fun s => run_single_process behave pec stu_code s)
  ((solStep.1.1, stuStep.1.1, stuStep.1.2.1, stuStep.1.2.2), stuStep.2)

/-- Path joining as in Path(a, b): an empty component is dropped. -/
def pathJoin (a b : String) : String := if b = "" then a else a ++ "/" ++ b

/-- Modelled from the spec: deriving the child State that carries the
execution results.  The SCT-chain state's to_child accepting process,
output and reporter keyword attributes is not among the sources (the
to_child in State.py has a fixed parameter list), so the derivation is
modelled from the spec as a child state carrying both live processes, the
student's raw output, and the new reporter. -/
def run_to_child (s : PyState) (student_process solution_process : Nat)
    (raw_student_output : String) (reporter : Reporter) : PyState :=
  { data := { s.data with
      student_process := student_process,
      solution_process := solution_process,
      raw_student_output := raw_student_output,
      reporter := reporter },
    ancestors := s.data :: s.ancestors }

/-- The error-slot construction in run: the reporter's errors hold the
student failure message exactly when it is truthy. -/
def errorsOf (error : Option String) : List String :=
  match error with
  | some e => if e = "" then [] else [e]
  | none => []

/-- run (local.py lines 208-272): build the solution working directory
under solution_dir, create it, run the exercise (solution first, student
second, empty pre-exercise code), and derive the child state carrying both
processes, the student's raw output, and a reporter whose errors hold the
student run's failure message if it is truthy. -/
def run (state : PyState) (behave : String → Except String String)
    (relative_working_dir solution_dir : String) (st : OrchSt) : PyState × OrchSt :=
  let sol_wd := pathJoin (pathJoin st.cwd solution_dir) relative_working_dir
  let st0 : OrchSt := { st with trace := st.trace ++ [FsEvent.mkdirEvent sol_wd] }
  let stu_wd := pathJoin st.cwd relative_working_dir
  let step := run_exercise behave "" (state.data.solution_code.getD "")
    state.data.student_code (some sol_wd) (some stu_wd) st0
  let sol_process := step.1.1
  let stu_process := step.1.2.1
  let raw_stu_output := step.1.2.2.1
  let error := step.1.2.2.2
  (run_to_child state stu_process sol_process raw_stu_output
      (Reporter.child state.data.reporter (errorsOf error)), step.2)

/-! ### Concrete sample data -/

/-- A token map that maps every subtree to empty text. -/
def sampleGetText : Tree → String := fun _ => ""

/-- A concrete state record used by witnesses and counterexamples. -/
def sampleData : StateData :=
  { student_code := "x = 1",
    solution_code := some "y = 2",
    pre_exercise_code := "",
    student_tree := some (Tree.node "Module" []),
    solution_tree := some (Tree.node "Module" []),
    student_get_text := sampleGetText,
    solution_get_text := sampleGetText,
    student_context := { context := [], prev := [] },
    solution_context := { context := [], prev := [] },
    student_env := { context := [], prev := [] },
    solution_env := { context := [], prev := [] },
    student_parts := none,
    solution_parts := none,
    highlight := some (Tree.node "Expr" []),
    highlighting_disabled := none,
    messages := [],
    student_process := 0,
    solution_process := 0,
    raw_student_output := "",
    reporter := Reporter.root,
    klass := "State" }

/-- A concrete root state. -/
def sampleState : PyState := { data := sampleData, ancestors := [] }

/-- A concrete orchestrator start state. -/
def startSt : OrchSt := { cwd := "/home/repl", nextPid := 0, trace := [] }

/-- A behaviour where the student code prints hi and the solution code
raises. -/
def solFailBehave : String → Except String String :=
  fun c => if c = "x = 1" then Except.ok "hi" else Except.error "name error in solution"

/-- A behaviour where the student code prints hi and everything else
succeeds silently. -/
def solOkBehave : String → Except String String :=
  fun c => if c = "x = 1" then Except.ok "hi" else Except.ok ""

/-! ### Theorems -/

/-- Lookup in a Python-style merge: the second dictionary wins. -/
theorem dlookup_merge {V : Type} (a b : Dict V) (k : String) :
    dlookup (dmerge a b) k =
      (match dlookup b k with
       | some v => some v
       | none => dlookup a k) := by
  induction b with
  | nil => rfl
  | cons x rest ih =>
      cases x with
      | mk kx vx =>
          by_cases hk : kx = k
          · simp [dmerge, dlookup, hk]
          · simp [dmerge, dlookup, hk]
            simpa [dmerge] using ih

/-- C5: Context.update_ctx returns a Context whose visible bindings are
exactly the union of the receiver's accumulated bindings and the update,
with the update winning on every overlapping key; the receiver is a value
and is untouched. -/
theorem update_ctx_union (c : Context) (u : Dict PyVal) (k : String) :
    dlookup (Context.items (Context.update_ctx c u)) k =
      (match dlookup u k with
       | some v => some v
       | none => dlookup (Context.items c) k)
    ∧ hasKey (Context.items (Context.update_ctx c u)) k =
        (hasKey u k || hasKey (Context.items c) k) := by
  have h : Context.items (Context.update_ctx c u) = dmerge (Context.items c) u := rfl
  rw [h, dlookup_merge]
  constructor
  · cases dlookup u k <;> rfl
  · unfold hasKey
    rw [dlookup_merge]
    cases dlookup u k <;> cases dlookup (Context.items c) k <;> rfl

/-- C1 (amended): run-snippet-capture-result returns None when the snippet
raises, the literal string undefined when it completes without binding the
target name, and the string form of the bound value (which is also staged
under tempname) otherwise.  The error outcome is distinguishable from the
other two, and the bound-value outcome is distinguishable from the
never-bound sentinel exactly when the bound value's string form is not the
literal undefined. -/
theorem run_snippet_capture_result_outcomes (name tempname : String)
    (snippet : Dict PyVal → Except Unit (Dict PyVal)) (env uns : Dict PyVal) :
    (∀ err, snippet env = Except.error err →
        (TaskRunTreeStoreEnv.call name tempname snippet env uns).1 = none)
    ∧ (∀ new_env, snippet env = Except.ok new_env → dlookup new_env name = none →
        (TaskRunTreeStoreEnv.call name tempname snippet env uns).1 = some "undefined")
    ∧ (∀ new_env v, snippet env = Except.ok new_env → dlookup new_env name = some v →
        (TaskRunTreeStoreEnv.call name tempname snippet env uns).1 = some (strRep v)
        ∧ (TaskRunTreeStoreEnv.call name tempname snippet env uns).2 =
            dinsert uns tempname v)
    ∧ ((none : Option String) ≠ some "undefined")
    ∧ (∀ v : PyVal, strRep v ≠ "undefined" →
        (some (strRep v) : Option String) ≠ some "undefined"
        ∧ (some (strRep v) : Option String) ≠ none) := by
  refine ⟨?_, ?_, ?_, ?_, ?_⟩
  · intro err h
    simp [TaskRunTreeStoreEnv.call, h]
  · intro new_env h hl
    simp [TaskRunTreeStoreEnv.call, h, hl]
  · intro new_env v h hl
    constructor <;> simp [TaskRunTreeStoreEnv.call, h, hl]
  · intro h
    exact Option.noConfusion h
  · intro v hv
    constructor
    · intro h
      exact hv (Option.some.inj h)
    · intro h
      exact Option.noConfusion h

/-- Witness for C1: a snippet that binds x to the integer 5 yields the
string 5, matching the spec's example. -/
theorem run_snippet_capture_result_outcomes_witness :
    (TaskRunTreeStoreEnv.call "x" "_tmp"
        (fun e => Except.ok (dinsert e "x" (PyVal.vint 5))) [] []).1 = some "5" := by
  have h := (run_snippet_capture_result_outcomes "x" "_tmp"
      (fun e => Except.ok (dinsert e "x" (PyVal.vint 5))) [] []).2.2.1
      (dinsert [] "x" (PyVal.vint 5)) (PyVal.vint 5) rfl rfl
  exact h.1

/-- C1 counterexample: a snippet that binds the target name to the Python
string undefined is indistinguishable from one that never binds it, so the
three outcomes are not mutually distinguishable. -/
theorem run_snippet_capture_result_collision :
    (TaskRunTreeStoreEnv.call "x" "_tmp"
        (fun e => Except.ok (dinsert e "x" (PyVal.vstr "undefined"))) [] []).1
      = (TaskRunTreeStoreEnv.call "x" "_tmp" (fun e => Except.ok e) [] []).1
    ∧ (TaskRunTreeStoreEnv.call "x" "_tmp"
        (fun e => Except.ok (dinsert e "x" (PyVal.vstr "undefined"))) [] []).1
      = some "undefined" :=
  ⟨rfl, rfl⟩

/-- C2: evaluating kill() on an alive, registered process whose OS process
survives terminate() and join(timeout=3.0): the bare raise fires (first
component) and the process is left registered, because the removal line
sits after the raise inside the try block and the finally block is empty. -/
theorem kill_timeout_leaves_registered :
    WorkerProcess.kill true { alive := true, registered := true } =
      (true, { alive := true, registered := true }) :=
  rfl

/-- C3 (amended): if either subtree is absent after wrapping, no descent
happens: to_child returns the same State through _update, with only its
Contexts, environments, message trail, highlight and highlighting-disabled
flag replaced (the highlight field is overwritten by the highlight
argument); the parent chain and every other field are untouched and no
child node is created. -/
theorem to_child_no_descent (s : PyState) (stuA solA : SubtreeArg)
    (sc soc se soe sp solp : Option (Dict PyVal))
    (hl : Option Tree) (hd : Option Bool) (am : Sum String Msg) (nn : String)
    (h : normalizeSubtree stuA = none ∨ normalizeSubtree solA = none) :
    to_child s stuA solA sc soc se soe sp solp hl hd am nn =
      PyState.updateAttrs s
        (ctxArg s.data.student_context sc)
        (ctxArg s.data.solution_context soc)
        (ctxArg s.data.student_env se)
        (ctxArg s.data.solution_env soe)
        hl
        (hdArg s.data.highlighting_disabled hd)
        (s.data.messages ++ [toMsg am]) := by
  cases hstu : normalizeSubtree stuA with
  | none =>
      cases hsol : normalizeSubtree solA with
      | none => simp [to_child, hstu, hsol]
      | some t => simp [to_child, hstu, hsol]
  | some t =>
      cases hsol : normalizeSubtree solA with
      | none => simp [to_child, hstu, hsol]
      | some t2 =>
          rcases h with h | h
          · rw [hstu] at h
            exact Option.noConfusion h
          · rw [hsol] at h
            exact Option.noConfusion h

/-- Witness for C3: a concrete no-descent call on the sample state. -/
theorem to_child_no_descent_witness :
    to_child sampleState SubtreeArg.noneArg SubtreeArg.noneArg none none none none
        none none none none (Sum.inl "hi") "" =
      PyState.updateAttrs sampleState sampleData.student_context
        sampleData.solution_context sampleData.student_env sampleData.solution_env
        none none (sampleData.messages ++ [toMsg (Sum.inl "hi")]) :=
  to_child_no_descent sampleState SubtreeArg.noneArg SubtreeArg.noneArg none none none
    none none none none none (Sum.inl "hi") "" (Or.inl rfl)

/-- C3 counterexample: on the sample state, which carries highlight
information, a no-descent to_child call with the default highlight argument
leaves the ancestor chain untouched (no child is created) yet overwrites
the highlight field to none, although highlight is not one of the Contexts,
environments or the message trail; so the claim that all other fields are
unchanged is false. -/
theorem to_child_no_descent_changes_highlight :
    (to_child sampleState SubtreeArg.noneArg (SubtreeArg.nodeArg (Tree.node "Pass" []))
        none none none none none none none none (Sum.inl "") "").ancestors
      = sampleState.ancestors
    ∧ (to_child sampleState SubtreeArg.noneArg (SubtreeArg.nodeArg (Tree.node "Pass" []))
        none none none none none none none none (Sum.inl "") "").data.highlight = none
    ∧ sampleState.data.highlight = some (Tree.node "Expr" [])
    ∧ ((none : Option Tree) ≠ some (Tree.node "Expr" [])) := by
  refine ⟨rfl, rfl, rfl, ?_⟩
  intro h
  exact Option.noConfusion h

/-- C6: get_signature resolution order: a direct manual-table entry for the
call's name wins even though a runtime callable (with a possibly different
introspected signature) exists for the mapped name; with no direct entry, a
method call falls back to the generalized name built from the runtime type
of the receiver in the manual table; only when the whole manual block
fails does runtime introspection of the callable decide. -/
theorem get_signature_resolution (name mapped_name : String)
    (manual_sigs : Dict Sig) (env : SigEnv) (f : PyCallable)
    (hf : env.evalObj mapped_name = some f) :
    (∀ sig, dlookup manual_sigs name = some sig →
        get_signature name mapped_name none manual_sigs env = Except.ok sig)
    ∧ (∀ tn gsig, dlookup manual_sigs name = none →
        mapped_name.data.contains '.' = true →
        env.typeNameOf ((pySplit name '.').headD "") = some tn →
        dlookup manual_sigs (joinDot (tn :: (pySplit name '.').tail)) = some gsig →
        get_signature name mapped_name none manual_sigs env = Except.ok gsig)
    ∧ (manual_lookup name mapped_name manual_sigs env = none →
        get_signature name mapped_name none manual_sigs env = introspect f) := by
  refine ⟨?_, ?_, ?_⟩
  · intro sig h
    simp [get_signature, hf, manual_lookup, h]
  · intro tn gsig h1 h2 h3 h4
    have h2m : ('.') ∈ mapped_name.data := by simpa using h2
    have h3m : env.typeNameOf ((pySplit name '.').head?.getD "") = some tn := by
      simpa using h3
    simp [get_signature, hf, manual_lookup, h1, h2m, h3m, h4]
  · intro hm
    simp [get_signature, hf, hm]

/-- Witness for C6: the method call df.head with no direct manual entry
resolves through the generalized name DataFrame.head in the manual table,
not through the runtime introspection of the bound method. -/
theorem get_signature_resolution_witness :
    get_signature "df.head" "df.head" none [("DataFrame.head", ["n"])] sampleSigEnv =
      Except.ok ["n"] :=
  (get_signature_resolution "df.head" "df.head" [("DataFrame.head", ["n"])] sampleSigEnv
      { introspectSig := some ["runtime_self", "runtime_n"] } rfl).2.1
    "DataFrame" ["n"] rfl rfl rfl rfl

/-- If the shutdown task never occurs, the worker loop pushes exactly one
result per submitted task: no response is skipped and the loop does not
crash. -/
theorem runLoop_length (tasks : List WTask) :
    ∀ shell, containsKill tasks = false →
      (WorkerProcess.runLoop shell tasks).length = tasks.length := by
  induction tasks with
  | nil =>
      intro shell h
      rfl
  | cons t rest ih =>
      cases t with
      | killTask =>
          intro shell h
          simp [containsKill] at h
      | normal body =>
          intro shell h
          have h2 : containsKill rest = false := h
          cases hb : body shell with
          | ok p =>
              cases p with
              | mk v sh2 => simp [WorkerProcess.runLoop, hb, ih sh2 h2]
          | error m =>
              simp [WorkerProcess.runLoop, hb, ih shell h2]

/-- C7: a task that raises inside the worker loop yields the backend-error
payload carrying the exception text as its pushed result, and the loop
goes on to process the remaining tasks; without a shutdown task every task
gets exactly one response, and the loop returns (with a final None answer)
only after the shutdown task. -/
theorem worker_loop_contains_errors (shell : Shell)
    (body : Shell → Except String (PyVal × Shell)) (msg : String)
    (rest : List WTask) (h : body shell = Except.error msg) :
    WorkerProcess.runLoop shell (WTask.normal body :: rest) =
      WResult.backendError msg :: WorkerProcess.runLoop shell rest
    ∧ (containsKill rest = false →
        (WorkerProcess.runLoop shell rest).length = rest.length)
    ∧ (∀ rest2 : List WTask,
        WorkerProcess.runLoop shell (WTask.killTask :: rest2) =
          [WResult.value PyVal.vnone]) := by
  refine ⟨?_, fun hc => runLoop_length rest shell hc, fun rest2 => rfl⟩
  simp [WorkerProcess.runLoop, h]

/-- Witness for C7: a raising task followed by the shutdown task produces
the backend-error result and then the shutdown answer. -/
theorem worker_loop_contains_errors_witness :
    WorkerProcess.runLoop [] [WTask.normal (fun _ => Except.error "boom"), WTask.killTask] =
      [WResult.backendError "boom", WResult.value PyVal.vnone] := by
  have h := worker_loop_contains_errors [] (fun _ => Except.error "boom") "boom"
      [WTask.killTask] rfl
  rw [h.1, h.2.2 []]

/-- The teardown loop visits every manager in order and aggregates the last
error over the already-processed prefix. -/
theorem context_objs_exit_go_spec (objs : List CtxObj) :
    ∀ exited got_error,
      context_objs_exit_go objs exited got_error =
        (exited ++ objs.map CtxObj.objId,
         match lastErr (objs.map CtxObj.exitResult) with
         | some e => some e
         | none => got_error) := by
  induction objs with
  | nil =>
      intro ex ge
      simp [context_objs_exit_go, lastErr]
  | cons o rest ih =>
      intro ex ge
      simp only [context_objs_exit_go, ih, List.map_cons]
      cases hl : lastErr (rest.map CtxObj.exitResult) with
      | some e => cases ho : o.exitResult <;> simp [lastErr, hl, ho]
      | none => cases ho : o.exitResult <;> simp [lastErr, hl, ho]

/-- All-successful exits give no last error. -/
theorem lastErr_map_none (objs : List CtxObj)
    (h : (objs.all fun o => o.exitResult.isNone) = true) :
    lastErr (objs.map CtxObj.exitResult) = none := by
  induction objs with
  | nil => rfl
  | cons o rest ih =>
      rw [List.all_cons, Bool.and_eq_true] at h
      have hx : o.exitResult = none := Option.isNone_iff_eq_none.mp h.1
      simp [lastErr, ih h.2, hx]

/-- C8: context_objs_exit exits every recorded manager in the recorded
order even when some exits raise (the trace component lists them all), no
failure is raised to the caller (the function is total), and the aggregate
is the last error encountered across all scopes, falsy when every exit
succeeded. -/
theorem context_objs_exit_spec (objs : List CtxObj) :
    (context_objs_exit objs).1 = objs.map CtxObj.objId
    ∧ (context_objs_exit objs).2 = lastErr (objs.map CtxObj.exitResult)
    ∧ (objs.all (fun o => o.exitResult.isNone) = true →
        (context_objs_exit objs).2 = none) := by
  unfold context_objs_exit
  rw [context_objs_exit_go_spec objs [] none]
  refine ⟨by simp, ?_, ?_⟩
  · cases hl : lastErr (objs.map CtxObj.exitResult) <;> simp [hl]
  · intro ha
    simp [lastErr_map_none objs ha]

/-- Witness for C8: two managers whose exits both succeed give a falsy
aggregate. -/
theorem context_objs_exit_spec_witness :
    (context_objs_exit
        [{ objId := 1, exitResult := none }, { objId := 2, exitResult := none }]).2 = none :=
  (context_objs_exit_spec
      [{ objId := 1, exitResult := none }, { objId := 2, exitResult := none }]).2.2 rfl

/-- The zipped sliding windows of build_message render to the same list as
the recursive previous/current/next formulation. -/
theorem msgWindows_filterMap_renderAll (render : RenderFn) (msgs : List Msg) :
    ∀ prev, (msgWindows prev msgs).filterMap (renderWindow render) =
      renderAll render prev msgs := by
  induction msgs with
  | nil =>
      intro prev
      rfl
  | cons d rest ih =>
      intro prev
      cases rest with
      | nil =>
          by_cases hmsg : d.msg = "" <;>
            simp [msgWindows, renderAll, renderWindow, hmsg]
      | cons r rs =>
          have step : msgWindows prev (d :: r :: rs) =
              ((prev, d), some r) :: msgWindows (some d) (r :: rs) := by
            simp [msgWindows]
          rw [step, List.filterMap_cons]
          by_cases hmsg : d.msg = "" <;>
            simp [renderWindow, renderAll, hmsg, ih (some d)]

/-- C9: with append true, build_message renders the message trail (with the
trailing message appended) in order, expanding each non-empty entry against
the parameters of its previous, current and next entries, keeps only the
last three rendered entries when highlight information is available and
highlighting is not disabled, and concatenates the kept entries in trail
order. -/
theorem build_message_renders_trail (render : RenderFn) (messages : List Msg)
    (highlight : Option Tree) (highlighting_disabled : Option Bool)
    (tail : String) (fmt_kwargs : Dict PyVal) :
    build_message render messages highlight highlighting_disabled tail fmt_kwargs true =
      some (build_message_spec render messages highlight highlighting_disabled
        tail fmt_kwargs) := by
  simp [build_message, build_message_spec, lastThree,
    msgWindows_filterMap_renderAll render (messages ++ [{ msg := tail, kwargs := fmt_kwargs }])]

/-- C10: for each of the three staged-result wrappers, the bytestream is
None whenever the string result is None, and the byte representation is
requested only after the main task reported a non-None string result. -/
theorem result_pair_invariant :
    resultPairProtocol getResultInProcess
    ∧ resultPairProtocol getFunctionCallResultInProcess
    ∧ resultPairProtocol getTreeResultInProcess := by
  refine ⟨?_, ?_, ?_⟩
  · intro p
    cases hp : p.strResult with
    | none =>
        refine ⟨fun _ => ?_, fun n hn => ?_, ⟨"TaskGetResult", Or.inl ?_⟩⟩
        · simp [getResultInProcess, hp]
        · simp [getResultInProcess, hp] at hn
        · simp [getResultInProcess, hp]
    | some s =>
        refine ⟨fun hc => ?_, fun n _ hc => ?_, ⟨"TaskGetResult", Or.inr ?_⟩⟩
        · simp [getResultInProcess, hp] at hc
        · simp [getResultInProcess, hp] at hc
        · simp [getResultInProcess, hp]
  · intro p
    cases hp : p.strResult with
    | none =>
        refine ⟨fun _ => ?_, fun n hn => ?_, ⟨"TaskGetFunctionCallResult", Or.inl ?_⟩⟩
        · simp [getFunctionCallResultInProcess, hp]
        · simp [getFunctionCallResultInProcess, hp] at hn
        · simp [getFunctionCallResultInProcess, hp]
    | some s =>
        refine ⟨fun hc => ?_, fun n _ hc => ?_, ⟨"TaskGetFunctionCallResult", Or.inr ?_⟩⟩
        · simp [getFunctionCallResultInProcess, hp] at hc
        · simp [getFunctionCallResultInProcess, hp] at hc
        · simp [getFunctionCallResultInProcess, hp]
  · intro p
    cases hp : p.strResult with
    | none =>
        refine ⟨fun _ => ?_, fun n hn => ?_, ⟨"TaskGetTreeResult", Or.inl ?_⟩⟩
        · simp [getTreeResultInProcess, hp]
        · simp [getTreeResultInProcess, hp] at hn
        · simp [getTreeResultInProcess, hp]
    | some s =>
        refine ⟨fun hc => ?_, fun n _ hc => ?_, ⟨"TaskGetTreeResult", Or.inr ?_⟩⟩
        · simp [getTreeResultInProcess, hp] at hc
        · simp [getTreeResultInProcess, hp] at hc
        · simp [getTreeResultInProcess, hp]

/-- Witness for C10: a main task reporting None yields no bytestream. -/
theorem result_pair_invariant_witness :
    (getResultInProcess { strResult := none, representation := some [1, 2] }).1.1 = none :=
  (result_pair_invariant.1 { strResult := none, representation := some [1, 2] }).1 rfl

/-- C4 (amended): run executes the solution program and then the student
program, each in its own freshly created worker process and each inside its
own working directory (the event trace); the derived child State carries
both live processes, the student's captured raw stdout, and an error slot
holding the top-level failure message (if any) of the student run; the
solution run's outcome is discarded: the result is identical for any
behaviour agreeing on the student code. -/
theorem run_orchestration (stt : PyState) (behave : String → Except String String)
    (rel sd : String) (st : OrchSt) :
    ((run stt behave rel sd st).1.data.solution_process = st.nextPid
     ∧ (run stt behave rel sd st).1.data.student_process = st.nextPid + 1
     ∧ (run stt behave rel sd st).1.data.solution_process ≠
         (run stt behave rel sd st).1.data.student_process)
    ∧ (run stt behave rel sd st).2.trace = st.trace ++
        [FsEvent.mkdirEvent (pathJoin (pathJoin st.cwd sd) rel),
         FsEvent.chdirEvent (pathJoin (pathJoin st.cwd sd) rel),
         FsEvent.execEvent st.nextPid (pathJoin (pathJoin st.cwd sd) rel) "",
         FsEvent.execEvent st.nextPid (pathJoin (pathJoin st.cwd sd) rel)
           (stt.data.solution_code.getD ""),
         FsEvent.chdirEvent st.cwd,
         FsEvent.chdirEvent (pathJoin st.cwd rel),
         FsEvent.execEvent (st.nextPid + 1) (pathJoin st.cwd rel) "",
         FsEvent.execEvent (st.nextPid + 1) (pathJoin st.cwd rel) stt.data.student_code,
         FsEvent.chdirEvent st.cwd]
    ∧ (run stt behave rel sd st).1.data.raw_student_output =
        (run_code (behave stt.data.student_code)).1
    ∧ (run stt behave rel sd st).1.data.reporter =
        Reporter.child stt.data.reporter
          (errorsOf (run_code (behave stt.data.student_code)).2)
    ∧ (∀ behave2 : String → Except String String,
        behave2 stt.data.student_code = behave stt.data.student_code →
        run stt behave2 rel sd st = run stt behave rel sd st) := by
  refine ⟨⟨rfl, rfl, ?_⟩, ?_, rfl, rfl, ?_⟩
  · simp [run, run_exercise, with_chdir, run_single_process, run_to_child]
  · simp [run, run_exercise, with_chdir, run_single_process, run_to_child]
  · intro behave2 h
    simp only [run, run_exercise, with_chdir, run_single_process, run_code, run_to_child]
    rw [h]

/-- Witness for C4: a behaviour that fails on the solution code is
indistinguishable from one that succeeds there, as long as they agree on
the student code. -/
theorem run_orchestration_witness :
    run sampleState solFailBehave "" "solution" startSt =
      run sampleState solOkBehave "" "solution" startSt :=
  (run_orchestration sampleState solOkBehave "" "solution" startSt).2.2.2.2
    solFailBehave rfl

/-- C4 counterexample: with the solution code raising a top-level error and
the student code succeeding, run completes normally, its result is
identical to the result of a run whose solution succeeds, and the error
slot of the derived state is empty: the solution-side failure is not
surfaced as a fatal authoring error (nor anywhere else). -/
theorem run_discards_solution_failure :
    run sampleState solFailBehave "" "solution" startSt =
      run sampleState solOkBehave "" "solution" startSt
    ∧ (run sampleState solFailBehave "" "solution" startSt).1.data.reporter =
        Reporter.child Reporter.root []
    ∧ solFailBehave (sampleData.solution_code.getD "") =
        Except.error "name error in solution" := by
  refine ⟨?_, rfl, rfl⟩
  rfl

end PythonWhat
